import Mathlib

/-!
Shallow embedding of the roadmap single-page application (src/src/App.tsx).

The application state (`AppState`) mirrors the React state hooks of `App`;
browser local storage is modelled by `Store`, a record of the three keys the
code uses (`lastPreferences`, `geminiApiKey`, `savedRoadmaps`).  The remote
generative-model call is modelled by passing the response text to
`generateRoadmap` as an argument: the theorems below describe the runs in
which the remote call itself returned a text (network/auth failures are a
separate path that no claim quantifies over).

`JSON.parse` and `JSON.stringify` are modelled by an executable recursive
descent parser (`parseValue` and friends, with a fuel argument that is
always sufficient: each unit of fuel pays for one parser call and at least
one input character is consumed every two calls) and serializer
(`stringifyJson`).  Strings are modelled as `List Char` (Unicode scalar
values).  Number literals are modelled as integers: no value manipulated by
the application contains a number (every field of the data model is a
string, an array or an object), so fraction/exponent syntax is irrelevant
to every claim and the parser conservatively rejects it.
-/

/-- Whitespace recognised by JavaScript `String.prototype.trim` (ECMAScript
WhiteSpace and LineTerminator code points). -/
def isJSWs (c : Char) : Bool :=
  let n := c.toNat
  n == 0x09 || n == 0x0A || n == 0x0B || n == 0x0C || n == 0x0D || n == 0x20 ||
  n == 0xA0 || n == 0x1680 || (decide (0x2000 ≤ n) && decide (n ≤ 0x200A)) ||
  n == 0x2028 || n == 0x2029 || n == 0x202F || n == 0x205F ||
  n == 0x3000 || n == 0xFEFF

/-- Model of JavaScript `String.prototype.trim`. -/
def trimJS (cs : List Char) : List Char :=
  ((cs.dropWhile isJSWs).reverse.dropWhile isJSWs).reverse

/-- Whitespace allowed by the JSON grammar (used by `JSON.parse`). -/
def isJsonWs (c : Char) : Bool :=
  let n := c.toNat
  n == 0x20 || n == 0x09 || n == 0x0A || n == 0x0D

/-- Skip JSON whitespace. -/
def skipWs (cs : List Char) : List Char := cs.dropWhile isJsonWs

/-- JSON values, as produced by `JSON.parse` (numbers restricted to
integers; see the header comment). -/
inductive Json where
  | null : Json
  | bool : Bool → Json
  | num : Int → Json
  | str : List Char → Json
  | arr : List Json → Json
  | obj : List (List Char × Json) → Json

/-- Numeric value of a hexadecimal digit. -/
def hexVal (c : Char) : Option Nat :=
  if '0' ≤ c ∧ c ≤ '9' then some (c.toNat - '0'.toNat)
  else if 'a' ≤ c ∧ c ≤ 'f' then some (c.toNat - 'a'.toNat + 10)
  else if 'A' ≤ c ∧ c ≤ 'F' then some (c.toNat - 'A'.toNat + 10)
  else none

/-- Value of a four-hex-digit escape. -/
def hex4 (h1 h2 h3 h4 : Char) : Option Nat :=
  match hexVal h1, hexVal h2, hexVal h3, hexVal h4 with
  | some a, some b, some c, some d => some (((a * 16 + b) * 16 + c) * 16 + d)
  | _, _, _, _ => none

/-- Translation of a single-character JSON string escape (the character
after the backslash). -/
def escUnescape (e : Char) : Option Char :=
  if e = '"' then some '"'
  else if e = '\\' then some '\\'
  else if e = '/' then some '/'
  else if e = 'b' then some (Char.ofNat 0x08)
  else if e = 'f' then some (Char.ofNat 0x0C)
  else if e = 'n' then some '\n'
  else if e = 'r' then some '\r'
  else if e = 't' then some '\t'
  else none

/-- Parse one escape sequence (input starts after the backslash); returns
the denoted character and the remaining input. -/
def parseEscape : List Char → Option (Char × List Char)
  | [] => none
  | e :: rest =>
    if e = 'u' then
      match rest with
      | h1 :: h2 :: h3 :: h4 :: rest2 =>
        match hex4 h1 h2 h3 h4 with
        | some n => some (Char.ofNat n, rest2)
        | none => none
      | _ => none
    else
      match escUnescape e with
      | some ec => some (ec, rest)
      | none => none

/-- Parse the body of a JSON string (input starts after the opening quote);
returns the decoded characters and the input after the closing quote.  The
fuel argument bounds the number of decoded characters; callers pass the
length of the remaining input plus one, which is always sufficient since
every decoded character consumes at least one input character. -/
def parseStringBody : Nat → List Char → Option (List Char × List Char)
  | 0, _ => none
  | _, [] => none
  | Nat.succ fuel, c :: rest =>
    if c = '"' then some ([], rest)
    else if c = '\\' then
      match parseEscape rest with
      | some (ec, rest2) =>
        match parseStringBody fuel rest2 with
        | some (s, r) => some (ec :: s, r)
        | none => none
      | none => none
    else if c.toNat < 0x20 then none
    else
      match parseStringBody fuel rest with
      | some (s, r) => some (c :: s, r)
      | none => none

/-- Consume a maximal run of decimal digits, accumulating their value. -/
def takeDigits : List Char → Nat → Nat × List Char
  | [], acc => (acc, [])
  | c :: rest, acc =>
    if '0' ≤ c ∧ c ≤ '9' then takeDigits rest (acc * 10 + (c.toNat - '0'.toNat))
    else (acc, c :: rest)

/-- Parse a JSON number (integer subset; see header comment). -/
def parseNumber (cs : List Char) : Option (Json × List Char) :=
  match cs with
  | '-' :: c :: rest =>
    if '0' ≤ c ∧ c ≤ '9' then
      let p := takeDigits (c :: rest) 0
      some (Json.num (-(p.1 : Int)), p.2)
    else none
  | c :: rest =>
    if '0' ≤ c ∧ c ≤ '9' then
      let p := takeDigits (c :: rest) 0
      some (Json.num (p.1 : Int), p.2)
    else none
  | [] => none

/-- Match an expected literal suffix (`rue` of `true`, etc.). -/
def stripLit : List Char → List Char → Option (List Char)
  | [], cs => some cs
  | _ :: _, [] => none
  | p :: ps, c :: cs => if c = p then stripLit ps cs else none

mutual

/-- Recursive descent parser for one JSON value; returns the value and the
remaining input.  One unit of fuel per parser call. -/
def parseValue : Nat → List Char → Option (Json × List Char)
  | 0, _ => none
  | Nat.succ fuel, cs =>
    match skipWs cs with
    | [] => none
    | c :: rest =>
      if c = '"' then
        match parseStringBody (rest.length + 1) rest with
        | some (s, r) => some (Json.str s, r)
        | none => none
      else if c = '[' then
        match skipWs rest with
        | [] => parseArrayItems fuel rest []
        | d :: rest2 =>
          if d = ']' then some (Json.arr [], rest2) else parseArrayItems fuel rest []
      else if c = '{' then
        match skipWs rest with
        | [] => parseObjItems fuel rest []
        | d :: rest2 =>
          if d = '}' then some (Json.obj [], rest2) else parseObjItems fuel rest []
      else if c = 't' then
        match stripLit ['r', 'u', 'e'] rest with
        | some r => some (Json.bool true, r)
        | none => none
      else if c = 'f' then
        match stripLit ['a', 'l', 's', 'e'] rest with
        | some r => some (Json.bool false, r)
        | none => none
      else if c = 'n' then
        match stripLit ['u', 'l', 'l'] rest with
        | some r => some (Json.null, r)
        | none => none
      else parseNumber (c :: rest)

/-- Parse the comma-separated items of a non-empty JSON array (input starts
after the opening bracket). -/
def parseArrayItems : Nat → List Char → List Json → Option (Json × List Char)
  | 0, _, _ => none
  | Nat.succ fuel, cs, acc =>
    match parseValue fuel cs with
    | none => none
    | some (v, rest) =>
      match skipWs rest with
      | [] => none
      | c :: rest2 =>
        if c = ',' then parseArrayItems fuel rest2 (acc ++ [v])
        else if c = ']' then some (Json.arr (acc ++ [v]), rest2)
        else none

/-- Parse the comma-separated members of a non-empty JSON object (input
starts after the opening brace). -/
def parseObjItems : Nat → List Char → List (List Char × Json) →
    Option (Json × List Char)
  | 0, _, _ => none
  | Nat.succ fuel, cs, acc =>
    match skipWs cs with
    | [] => none
    | c :: rest =>
      if c = '"' then
        match parseStringBody (rest.length + 1) rest with
        | none => none
        | some (key, rest2) =>
          match skipWs rest2 with
          | [] => none
          | c2 :: rest3 =>
            if c2 = ':' then
              match parseValue fuel rest3 with
              | none => none
              | some (v, rest4) =>
                match skipWs rest4 with
                | [] => none
                | c3 :: rest5 =>
                  if c3 = ',' then parseObjItems fuel rest5 (acc ++ [(key, v)])
                  else if c3 = '}' then some (Json.obj (acc ++ [(key, v)]), rest5)
                  else none
            else none
      else none

end

/-- Model of `JSON.parse`: parse a complete JSON text (surrounding
whitespace allowed, nothing but whitespace may follow the value). -/
def parseJsonTop (cs : List Char) : Option Json :=
  match parseValue (2 * cs.length + 2) cs with
  | some (v, rest) => if (skipWs rest).isEmpty then some v else none
  | none => none

/-- Lowercase hexadecimal digit for a value below 16. -/
def hexDigitChar (n : Nat) : Char :=
  if n < 10 then Char.ofNat ('0'.toNat + n) else Char.ofNat ('a'.toNat + n - 10)

/-- Serialization of one character inside a JSON string, as produced by
`JSON.stringify`. -/
def escapeChar (c : Char) : List Char :=
  if c = '"' then ['\\', '"']
  else if c = '\\' then ['\\', '\\']
  else if c = '\n' then ['\\', 'n']
  else if c = '\r' then ['\\', 'r']
  else if c = '\t' then ['\\', 't']
  else if c.toNat = 0x08 then ['\\', 'b']
  else if c.toNat = 0x0C then ['\\', 'f']
  else if c.toNat < 0x20 then
    ['\\', 'u', '0', '0', hexDigitChar (c.toNat / 16), hexDigitChar (c.toNat % 16)]
  else [c]

/-- Serialization of a JSON string (with its quotes). -/
def stringifyString (s : List Char) : List Char :=
  '"' :: (s.map escapeChar).flatten ++ ['"']

mutual

/-- Model of `JSON.stringify` (no indentation argument, hence no
whitespace in the output). -/
def stringifyJson : Json → List Char
  | Json.null => ['n', 'u', 'l', 'l']
  | Json.bool true => ['t', 'r', 'u', 'e']
  | Json.bool false => ['f', 'a', 'l', 's', 'e']
  | Json.num n =>
    if n < 0 then '-' :: Nat.toDigits 10 n.natAbs else Nat.toDigits 10 n.natAbs
  | Json.str s => stringifyString s
  | Json.arr xs => '[' :: stringifyItems xs ++ [']']
  | Json.obj fs => '{' :: stringifyFields fs ++ ['}']

/-- Comma-separated serialization of array items. -/
def stringifyItems : List Json → List Char
  | [] => []
  | [x] => stringifyJson x
  | x :: y :: rest => stringifyJson x ++ ',' :: stringifyItems (y :: rest)

/-- Comma-separated serialization of object members. -/
def stringifyFields : List (List Char × Json) → List Char
  | [] => []
  | [(k, v)] => stringifyString k ++ ':' :: stringifyJson v
  | (k, v) :: f :: rest =>
    stringifyString k ++ ':' :: stringifyJson v ++ ',' :: stringifyFields (f :: rest)

end

/-- The `UserPreferences` interface of `App.tsx` (all fields are strings,
modelled as character lists). -/
structure UserPreferences where
  goal : List Char
  timeframe : List Char
  experience : List Char
  dedication : List Char
deriving DecidableEq, Repr

/-- The resource entries of a `RoadmapStep`. -/
structure Resource where
  title : List Char
  url : List Char
deriving DecidableEq, Repr

/-- The `RoadmapStep` interface of `App.tsx`. -/
structure RoadmapStep where
  title : List Char
  description : List Char
  resources : List Resource
  timeframe : List Char
  skills : List (List Char)
deriving DecidableEq, Repr

/-- The `SavedRoadmap` interface of `App.tsx`.  At run time `steps` holds
whatever value `JSON.parse` produced for the roadmap (TypeScript types are
erased), so it is modelled as a raw JSON value. -/
structure SavedRoadmap where
  preferences : UserPreferences
  steps : Json
  createdAt : List Char

/-- Browser local storage, restricted to the three keys the code uses.
Each slot holds the raw stored text, `none` when the key is absent. -/
structure Store where
  lastPreferences : Option (List Char)
  geminiApiKey : Option (List Char)
  savedRoadmaps : Option (List Char)

/-- The session state of `App` (the React state hooks, in declaration
order, minus presentation-only concerns). -/
structure AppState where
  preferences : UserPreferences
  loading : Bool
  roadmap : Json
  error : List Char
  apiKey : List Char
  showApiInput : Bool
  isDarkMode : Bool
  savedRoadmaps : List SavedRoadmap
  store : Store

/-- First-match property lookup in a parsed JSON object. -/
def jLookup (k : List Char) : List (List Char × Json) → Option Json
  | [] => none
  | (k', v) :: rest => if k' == k then some v else jLookup k rest

/-- Read a JSON value as a string. -/
def asStr : Json → Option (List Char)
  | Json.str s => some s
  | _ => none

/-- JSON encoding of `UserPreferences`, with the key order the object
literal in `App.tsx` uses (the order `JSON.stringify` preserves). -/
def prefsJson (p : UserPreferences) : Json :=
  Json.obj [(['g', 'o', 'a', 'l'], Json.str p.goal),
            (['t', 'i', 'm', 'e', 'f', 'r', 'a', 'm', 'e'], Json.str p.timeframe),
            (['e', 'x', 'p', 'e', 'r', 'i', 'e', 'n', 'c', 'e'], Json.str p.experience),
            (['d', 'e', 'd', 'i', 'c', 'a', 't', 'i', 'o', 'n'], Json.str p.dedication)]

/-- Decode a parsed JSON value as a `UserPreferences` record; `none` models
a stored value that does not have the shape the surrounding code assumes.  -/
def decodePrefs (j : Json) : Option UserPreferences :=
  match j with
  | Json.obj fs =>
    match (jLookup ['g', 'o', 'a', 'l'] fs).bind asStr,
          (jLookup ['t', 'i', 'm', 'e', 'f', 'r', 'a', 'm', 'e'] fs).bind asStr,
          (jLookup ['e', 'x', 'p', 'e', 'r', 'i', 'e', 'n', 'c', 'e'] fs).bind asStr,
          (jLookup ['d', 'e', 'd', 'i', 'c', 'a', 't', 'i', 'o', 'n'] fs).bind asStr with
    | some g, some t, some e, some d => some ⟨g, t, e, d⟩
    | _, _, _, _ => none
  | _ => none

/-- Default preferences, from the `useState` initializer in `App.tsx`. -/
def defaultPreferences : UserPreferences :=
  ⟨[], "6 months".toList, "beginner".toList, "10 hours/week".toList⟩

/-- Startup read of the `lastPreferences` key: absent key yields the
defaults; a stored text is run through `JSON.parse`.  A `none` result
models a stored text whose parse does not produce a preferences object
(the untyped cast in the code would then yield a malformed record). -/
def readPreferences (stored : Option (List Char)) : Option UserPreferences :=
  match stored with
  | none => some defaultPreferences
  | some s => (parseJsonTop s).bind decodePrefs

/-- Decode a parsed JSON value as a resource entry. -/
def decodeResource (j : Json) : Option Resource :=
  match j with
  | Json.obj fs =>
    match (jLookup ['t', 'i', 't', 'l', 'e'] fs).bind asStr,
          (jLookup ['u', 'r', 'l'] fs).bind asStr with
    | some t, some u => some ⟨t, u⟩
    | _, _ => none
  | _ => none

/-- Decode a parsed JSON value as a `RoadmapStep` (an object with string
`title`, `description`, `timeframe`, an array of resources and an array of
string skills). -/
def decodeStep (j : Json) : Option RoadmapStep :=
  match j with
  | Json.obj fs =>
    match (jLookup ['t', 'i', 't', 'l', 'e'] fs).bind asStr,
          (jLookup ['d', 'e', 's', 'c', 'r', 'i', 'p', 't', 'i', 'o', 'n'] fs).bind asStr,
          jLookup ['r', 'e', 's', 'o', 'u', 'r', 'c', 'e', 's'] fs,
          (jLookup ['t', 'i', 'm', 'e', 'f', 'r', 'a', 'm', 'e'] fs).bind asStr,
          jLookup ['s', 'k', 'i', 'l', 'l', 's'] fs with
    | some t, some d, some (Json.arr rs), some f, some (Json.arr ks) =>
      match rs.mapM decodeResource, ks.mapM asStr with
      | some resources, some skills => some ⟨t, d, resources, f, skills⟩
      | _, _ => none
    | _, _, _, _, _ => none
  | _ => none

/-- JSON encoding of a `SavedRoadmap`, with the key order of the object
literal in `saveRoadmap`. -/
def encodeSaved (r : SavedRoadmap) : Json :=
  Json.obj [("preferences".toList, prefsJson r.preferences),
            ("steps".toList, r.steps),
            ("createdAt".toList, Json.str r.createdAt)]

/-- Serialization of the saved-roadmap list, as written to the
`savedRoadmaps` key. -/
def stringifySavedList (l : List SavedRoadmap) : List Char :=
  stringifyJson (Json.arr (l.map encodeSaved))

/-- Truth value of the JavaScript test `x.length === 0` when `x` holds a
parsed JSON value: on a non-array, `x.length` is `undefined` and the strict
comparison with `0` is false. -/
def jsLengthIsZero : Json → Bool
  | Json.arr xs => xs.isEmpty
  | _ => false

/-- The prefix of `cs` that ends at the last `']'` of `cs` (empty when
`cs` has no `']'`). -/
def upToLastClose (cs : List Char) : List Char :=
  (cs.reverse.dropWhile (fun c => !(c == ']'))).reverse

/-- Model of `text.match(/\[[\s\S]*\]/)`: the substring from the first
`'['` of the text to the last `']'` after it, when both exist.  (The
regular expression matches at the first position from which a match is
possible; if the first `'['` has no `']'` after it then no later `'['`
does either, so the whole match fails.) -/
def extractBracketed : List Char → Option (List Char)
  | [] => none
  | c :: rest =>
    if c == '[' then
      let tail := upToLastClose rest
      if tail.isEmpty then none else some ('[' :: tail)
    else extractBracketed rest

/-- Whether the text has a substring of the form `[...]`, i.e. a `'['`
with a `']'` strictly after it. -/
def containsBracketPair : List Char → Bool
  | [] => false
  | c :: rest => (c == '[' && rest.contains ']') || containsBracketPair rest

/-- Validation message for a missing API key. -/
def apiKeyErrorMsg : List Char := "Please enter your Gemini API key".toList

/-- Validation message for a missing learning goal. -/
def goalErrorMsg : List Char := "Please enter your learning goal".toList

/-- The single generic failure message of the catch block. -/
def genericFailureMsg : List Char :=
  "Failed to generate roadmap. Please check your API key and try again.".toList

/-- Outcome of a `generateRoadmap` run: local validation failure (the
remote model is never invoked), a failure of extraction or parsing of the
remote response, or success. -/
inductive GenOutcome where
  | localValidationError : GenOutcome
  | remoteParseError : GenOutcome
  | remoteSuccess : GenOutcome
deriving DecidableEq, Repr

/-- Whether an outcome involved invoking the remote generative model. -/
def GenOutcome.remoteCalled : GenOutcome → Bool
  | GenOutcome.localValidationError => false
  | _ => true

/-- The `generateRoadmap` handler of `App.tsx`, for the runs in which the
remote call returns the response text `text`: validate the credential and
the goal; on success clear the error, extract the first bracketed
substring of the response, `JSON.parse` it, store it as the roadmap and
persist the preferences and the API key; any extraction or parse failure
sets the one generic message.  The `finally` clause clears the busy flag
on every path past validation. -/
def generateRoadmap (s : AppState) (text : List Char) : AppState × GenOutcome :=
  if (trimJS s.apiKey).isEmpty then
    ({ s with error := apiKeyErrorMsg }, GenOutcome.localValidationError)
  else if (trimJS s.preferences.goal).isEmpty then
    ({ s with error := goalErrorMsg }, GenOutcome.localValidationError)
  else
    match extractBracketed text with
    | none =>
      ({ s with error := genericFailureMsg, loading := false },
       GenOutcome.remoteParseError)
    | some sub =>
      match parseJsonTop sub with
      | none =>
        ({ s with error := genericFailureMsg, loading := false },
         GenOutcome.remoteParseError)
      | some v =>
        ({ s with error := [], roadmap := v, loading := false,
                  store := { s.store with
                    lastPreferences := some (stringifyJson (prefsJson s.preferences)),
                    geminiApiKey := some s.apiKey } },
         GenOutcome.remoteSuccess)

/-- The `saveRoadmap` handler of `App.tsx`: a no-op when the current
roadmap is empty, otherwise append one `SavedRoadmap` snapshot and rewrite
the `savedRoadmaps` storage key.  `now` is the `new Date().toISOString()`
timestamp. -/
def saveRoadmap (s : AppState) (now : List Char) : AppState :=
  if jsLengthIsZero s.roadmap then s
  else
    let updated := s.savedRoadmaps ++ [⟨s.preferences, s.roadmap, now⟩]
    { s with savedRoadmaps := updated,
             store := { s.store with savedRoadmaps := some (stringifySavedList updated) } }

/-- The `loadRoadmap` handler of `App.tsx`. -/
def loadRoadmap (s : AppState) (saved : SavedRoadmap) : AppState :=
  { s with preferences := saved.preferences, roadmap := saved.steps }

/-- Whether a parsed JSON value has the `RoadmapStep` shape. -/
def isStepJson (j : Json) : Bool := (decodeStep j).isSome

/-- Whether a text is precisely a well-formed JSON array of one or more
valid step objects. -/
def isStepArrayString (cs : List Char) : Bool :=
  match parseJsonTop cs with
  | some (Json.arr xs) => !xs.isEmpty && xs.all isStepJson
  | _ => false

/-- The substring of `cs` from index `i` to index `j` inclusive. -/
def sliceIncl (cs : List Char) (i j : Nat) : List Char :=
  (cs.drop i).take (j + 1 - i)

/-- Indices of the occurrences of a character. -/
def charPositions (c : Char) (cs : List Char) : List Nat :=
  (List.range cs.length).filter (fun i => cs.getD i c == c && decide (i < cs.length))

/-- Number of occurrences in `cs` of a substring that is a well-formed
JSON array of valid step objects: the pairs `(i, j)` of an opening bracket
index and a later closing bracket index whose inclusive slice parses as an
array of one or more valid step objects. -/
def stepArrayOccurrences (cs : List Char) : Nat :=
  ((charPositions '[' cs).map (fun i =>
    ((charPositions ']' cs).filter (fun j =>
      decide (i < j) && isStepArrayString (sliceIncl cs i j))).length)).sum

/-- Concrete store with all three keys absent (first visit). -/
def sampleStore : Store := ⟨none, none, none⟩

/-- Concrete preferences used by the concrete runs below. -/
def samplePrefs : UserPreferences :=
  ⟨"learn Lean".toList, "6 months".toList, "beginner".toList, "10 hours/week".toList⟩

/-- Concrete session state: valid credential and goal, no roadmap yet. -/
def sampleState : AppState :=
  ⟨samplePrefs, false, Json.arr [], [], "my-key".toList, false, false, [], sampleStore⟩

/-- Concrete session state holding a one-element roadmap. -/
def loadedState : AppState := { sampleState with roadmap := Json.arr [Json.null] }

/-- Concrete session state whose credential is whitespace-only. -/
def wsKeyState : AppState := { sampleState with apiKey := "   ".toList }

/-- A concrete timestamp. -/
def sampleNow : List Char := "2026-10-12T00:00:00.000Z".toList

/-- A response text that is exactly one well-formed JSON array of one valid
step object. -/
def stepArrayText : List Char :=
  "[\x7b\"title\":\"a\",\"description\":\"b\",\"resources\":[\x7b\"title\":\"r\",\"url\":\"u\"\x7d],\"timeframe\":\"c\",\"skills\":[\"s\"]\x7d]".toList

/-- The JSON value `stepArrayText` parses to (one valid step object). -/
def stepAJson : Json :=
  Json.obj [("title".toList, Json.str "a".toList),
            ("description".toList, Json.str "b".toList),
            ("resources".toList,
             Json.arr [Json.obj [("title".toList, Json.str "r".toList),
                                 ("url".toList, Json.str "u".toList)]]),
            ("timeframe".toList, Json.str "c".toList),
            ("skills".toList, Json.arr [Json.str "s".toList])]

/-- The step array preceded by a stray opening bracket: it still contains
exactly one well-formed JSON array of valid step objects, but the greedy
first-bracket extraction grabs the stray bracket too. -/
def prefixedStepArrayText : List Char := "[ ".toList ++ stepArrayText

/-- The step array surrounded by bracket-free prose. -/
def proseWrappedText : List Char :=
  "Here is your roadmap: ".toList ++ stepArrayText ++ " Good luck!".toList

/-- A response text whose bracketed substring is syntactically valid JSON
(an array holding one empty object) that is not a valid step array. -/
def shapelessText : List Char := "[\x7b\x7d]".toList

/-- A response text with no bracketed substring. -/
def noBracketText : List Char := "The model returned no structured data.".toList

/-- A string all of whose characters are JavaScript whitespace trims to the
empty string. -/
theorem trimJS_eq_nil_of_all_ws (cs : List Char) (h : cs.all isJSWs = true) :
    trimJS cs = [] := by
  unfold trimJS
  have h1 : cs.dropWhile isJSWs = [] :=
    List.dropWhile_eq_nil_iff.mpr (fun x hx => (List.all_eq_true.mp h) x hx)
  simp [h1]

/-- When a text has no `[...]` substring the bracket extraction fails. -/
theorem extractBracketed_eq_none (cs : List Char)
    (h : containsBracketPair cs = false) : extractBracketed cs = none := by
  induction cs with
  | nil => rfl
  | cons c rest ih =>
    unfold containsBracketPair at h
    simp only [Bool.or_eq_false_iff, Bool.and_eq_false_iff] at h
    obtain ⟨h1, h2⟩ := h
    unfold extractBracketed
    by_cases hc : c == '['
    · have hcont : rest.contains ']' = false := by
        rcases h1 with h1 | h1
        · simp [hc] at h1
        · exact h1
      have hnil : upToLastClose rest = [] := by
        unfold upToLastClose
        have hdw : rest.reverse.dropWhile (fun c => !(c == ']')) = [] := by
          apply List.dropWhile_eq_nil_iff.mpr
          intro x hx
          simp only [List.mem_reverse] at hx
          simp only [Bool.not_eq_true', beq_eq_false_iff_ne]
          intro he; subst he
          simp at hcont
          exact hcont hx
        simp [hdw]
      simp [hc, hnil]
    · simp [hc, ih h2]

/-- The escape of one character is at least one character long. -/
theorem escapeChar_length_pos (c : Char) : 1 ≤ (escapeChar c).length := by
  unfold escapeChar
  repeat' split
  all_goals simp

/-- Escaping never shortens a string. -/
theorem escape_flatten_length (s : List Char) :
    s.length ≤ ((s.map escapeChar).flatten).length := by
  induction s with
  | nil => simp
  | cons c s ih =>
    simp only [List.map_cons, List.flatten_cons, List.length_append, List.length_cons]
    have := escapeChar_length_pos c
    omega

/-- Reading back a produced hexadecimal digit. -/
theorem hexVal_hexDigitChar : ∀ m, m < 16 → hexVal (hexDigitChar m) = some m := by
  decide

/-- Round trip of the string escaper through the string parser, for any
sufficient fuel. -/
theorem parseStringBody_escape (s : List Char) : ∀ (fuel : Nat) (rest : List Char),
    s.length < fuel →
    parseStringBody fuel ((s.map escapeChar).flatten ++ '"' :: rest) = some (s, rest) := by
  induction s with
  | nil =>
    intro fuel rest hf
    match fuel, hf with
    | Nat.succ f, _ => simp [parseStringBody]
  | cons c s ih =>
    intro fuel rest hf
    match fuel, hf with
    | Nat.succ f, hf =>
      have hf' : s.length < f := by
        simp only [List.length_cons] at hf
        omega
      have ihf := ih f rest hf'
      simp only [List.map_cons, List.flatten_cons, List.append_assoc]
      by_cases h1 : c = '"'
      · subst h1
        simp [escapeChar, parseStringBody, parseEscape, escUnescape, ihf]
      · by_cases h2 : c = '\\'
        · subst h2
          simp [escapeChar, parseStringBody, parseEscape, escUnescape, ihf]
        · by_cases h3 : c = '\n'
          · subst h3
            simp [escapeChar, parseStringBody, parseEscape, escUnescape, ihf]
          · by_cases h4 : c = '\r'
            · subst h4
              simp [escapeChar, parseStringBody, parseEscape, escUnescape, ihf]
            · by_cases h5 : c = '\t'
              · subst h5
                simp [escapeChar, parseStringBody, parseEscape, escUnescape, ihf]
              · by_cases h6 : c.toNat = 0x08
                · have hc : c = Char.ofNat 0x08 := by
                    rw [← h6, Char.ofNat_toNat]
                  simp [escapeChar, h1, h2, h3, h4, h5, h6, parseStringBody,
                        parseEscape, escUnescape, ihf, hc]
                · by_cases h7 : c.toNat = 0x0C
                  · have hc : c = Char.ofNat 0x0C := by
                      rw [← h7, Char.ofNat_toNat]
                    simp [escapeChar, h1, h2, h3, h4, h5, h6, h7, parseStringBody,
                          parseEscape, escUnescape, ihf, hc]
                  · by_cases h8 : c.toNat < 0x20
                    · have hdiv : c.toNat / 16 < 16 := by omega
                      have hmod : c.toNat % 16 < 16 := Nat.mod_lt _ (by omega)
                      have e1 := hexVal_hexDigitChar _ hdiv
                      have e2 := hexVal_hexDigitChar _ hmod
                      have hval : ((0 * 16 + 0) * 16 + c.toNat / 16) * 16 + c.toNat % 16
                          = c.toNat := by omega
                      have hv2 : c.toNat / 16 * 16 + c.toNat % 16 = c.toNat := by omega
                      simp only [escapeChar, h1, h2, h3, h4, h5, h6, h7, h8,
                                 if_false, if_true, if_pos, if_neg, not_false_iff]
                      simp [parseStringBody, parseEscape, hex4, e1, e2, hval,
                            Char.ofNat_toNat, ihf, hv2,
                            show hexVal '0' = some 0 from by decide]
                    · simp [escapeChar, h1, h2, h3, h4, h5, h6, h7, h8,
                            parseStringBody, ihf]

/-- Whitespace skipping is the identity on input that starts with a
non-whitespace character. -/
theorem skipWs_cons_nonws (c : Char) (l : List Char) (h : isJsonWs c = false) :
    skipWs (c :: l) = c :: l := by
  simp [skipWs, List.dropWhile_cons, h]

/-- The value parser reads back a serialized string. -/
theorem parseValue_str (f : Nat) (s tail : List Char) :
    parseValue (f + 1) (stringifyString s ++ tail) = some (Json.str s, tail) := by
  simp only [stringifyString, List.cons_append, List.append_assoc, List.nil_append]
  rw [parseValue]
  rw [skipWs_cons_nonws _ _ (by decide)]
  dsimp only
  have hlen : s.length < ((s.map escapeChar).flatten ++ '"' :: tail).length + 1 := by
    simp only [List.length_append, List.length_cons]
    have := escape_flatten_length s
    omega
  rw [parseStringBody_escape s _ tail hlen]
  simp

/-- The fuel the parser hands to the string parser is sufficient. -/
theorem escLen_lt (k rest : List Char) :
    k.length < ((k.map escapeChar).flatten ++ '"' :: rest).length + 1 := by
  simp only [List.length_append, List.length_cons]
  have := escape_flatten_length k
  omega

/-- Expanded form of the previous lemma. -/
theorem parseValue_str_exp (f : Nat) (v tail : List Char) :
    parseValue (f + 1) ('"' :: ((v.map escapeChar).flatten ++ '"' :: tail))
      = some (Json.str v, tail) := by
  have h := parseValue_str f v tail
  simpa only [stringifyString, List.cons_append, List.append_assoc,
              List.nil_append] using h

/-- The object-member parser consumes one serialized string member
followed by a comma. -/
theorem parseObjItems_str_step (f : Nat) (k v tail : List Char)
    (acc : List (List Char × Json)) :
    parseObjItems (f + 1 + 1)
      (stringifyString k ++ ':' :: stringifyString v ++ ',' :: tail) acc
      = parseObjItems (f + 1) tail (acc ++ [(k, Json.str v)]) := by
  simp only [stringifyString, List.cons_append, List.append_assoc, List.nil_append]
  rw [show f + 1 + 1 = Nat.succ (f + 1) from rfl]
  rw [parseObjItems]
  rw [skipWs_cons_nonws _ _ (by decide)]
  dsimp only
  rw [parseStringBody_escape k _ _ (escLen_lt k _)]
  dsimp only
  rw [skipWs_cons_nonws _ _ (by decide)]
  dsimp only
  rw [parseValue_str_exp f v (',' :: tail)]
  try dsimp only
  rw [skipWs_cons_nonws _ _ (by decide)]
  try dsimp only
  try rfl

/-- The object-member parser consumes a final serialized string member
followed by the closing brace. -/
theorem parseObjItems_str_last (f : Nat) (k v tail : List Char)
    (acc : List (List Char × Json)) :
    parseObjItems (f + 1 + 1)
      (stringifyString k ++ ':' :: stringifyString v ++ '}' :: tail) acc
      = some (Json.obj (acc ++ [(k, Json.str v)]), tail) := by
  simp only [stringifyString, List.cons_append, List.append_assoc, List.nil_append]
  rw [show f + 1 + 1 = Nat.succ (f + 1) from rfl]
  rw [parseObjItems]
  rw [skipWs_cons_nonws _ _ (by decide)]
  dsimp only
  rw [parseStringBody_escape k _ _ (escLen_lt k _)]
  dsimp only
  rw [skipWs_cons_nonws _ _ (by decide)]
  dsimp only
  rw [parseValue_str_exp f v ('}' :: tail)]
  try dsimp only
  rw [skipWs_cons_nonws _ _ (by decide)]
  try dsimp only
  try rfl

/-- The value parser reads back a serialized preferences object. -/
theorem parseValue_prefs (f : Nat) (p : UserPreferences) :
    parseValue (f + 9) (stringifyJson (prefsJson p)) = some (prefsJson p, []) := by
  rw [show f + 9 = Nat.succ (f + 8) from rfl]
  have h1 := parseObjItems_str_step (f + 6) ['g', 'o', 'a', 'l'] p.goal
    (stringifyString ['t', 'i', 'm', 'e', 'f', 'r', 'a', 'm', 'e'] ++
      ':' :: stringifyString p.timeframe ++ ',' ::
      (stringifyString ['e', 'x', 'p', 'e', 'r', 'i', 'e', 'n', 'c', 'e'] ++
        ':' :: stringifyString p.experience ++ ',' ::
        (stringifyString ['d', 'e', 'd', 'i', 'c', 'a', 't', 'i', 'o', 'n'] ++
          ':' :: stringifyString p.dedication ++ '}' :: []))) []
  have h2 := parseObjItems_str_step (f + 5) ['t', 'i', 'm', 'e', 'f', 'r', 'a', 'm', 'e']
    p.timeframe
    (stringifyString ['e', 'x', 'p', 'e', 'r', 'i', 'e', 'n', 'c', 'e'] ++
      ':' :: stringifyString p.experience ++ ',' ::
      (stringifyString ['d', 'e', 'd', 'i', 'c', 'a', 't', 'i', 'o', 'n'] ++
        ':' :: stringifyString p.dedication ++ '}' :: []))
    [(['g', 'o', 'a', 'l'], Json.str p.goal)]
  have h3 := parseObjItems_str_step (f + 4) ['e', 'x', 'p', 'e', 'r', 'i', 'e', 'n', 'c', 'e']
    p.experience
    (stringifyString ['d', 'e', 'd', 'i', 'c', 'a', 't', 'i', 'o', 'n'] ++
      ':' :: stringifyString p.dedication ++ '}' :: [])
    [(['g', 'o', 'a', 'l'], Json.str p.goal),
     (['t', 'i', 'm', 'e', 'f', 'r', 'a', 'm', 'e'], Json.str p.timeframe)]
  have h4 := parseObjItems_str_last (f + 3) ['d', 'e', 'd', 'i', 'c', 'a', 't', 'i', 'o', 'n']
    p.dedication []
    [(['g', 'o', 'a', 'l'], Json.str p.goal),
     (['t', 'i', 'm', 'e', 'f', 'r', 'a', 'm', 'e'], Json.str p.timeframe),
     (['e', 'x', 'p', 'e', 'r', 'i', 'e', 'n', 'c', 'e'], Json.str p.experience)]
  simp only [prefsJson, stringifyJson, stringifyFields, stringifyString,
             List.append_assoc, List.cons_append, List.nil_append] at h1 h2 h3 h4 ⊢
  rw [parseValue]
  rw [skipWs_cons_nonws _ _ (by decide)]
  dsimp only
  simp only [show (('{' : Char) = '"') = False by simp,
             show (('{' : Char) = '[') = False by simp,
             show (('{' : Char) = '{') = True by simp, if_false, if_true]
  rw [skipWs_cons_nonws _ _ (by decide)]
  dsimp only
  simp only [show (('"' : Char) = '}') = False by simp, if_false]
  rw [show f + 8 = f + 6 + 1 + 1 from rfl]
  rw [h1]
  rw [show f + 6 + 1 = f + 5 + 1 + 1 by omega]
  rw [h2]
  rw [show f + 5 + 1 = f + 4 + 1 + 1 by omega]
  rw [h3]
  rw [show f + 4 + 1 = f + 3 + 1 + 1 by omega]
  rw [h4]
  try simp

/-- A serialized preferences object is at least four characters long. -/
theorem stringify_prefs_length (p : UserPreferences) :
    4 ≤ (stringifyJson (prefsJson p)).length := by
  simp only [prefsJson, stringifyJson, stringifyFields, stringifyString,
             List.length_cons, List.length_append, List.cons_append,
             List.append_assoc, List.nil_append]
  omega

/-- Model of `JSON.parse` applied to a serialized preferences object. -/
theorem parseJsonTop_prefs (p : UserPreferences) :
    parseJsonTop (stringifyJson (prefsJson p)) = some (prefsJson p) := by
  unfold parseJsonTop
  obtain ⟨f, hf⟩ : ∃ f, 2 * (stringifyJson (prefsJson p)).length + 2 = f + 9 := by
    have h4 := stringify_prefs_length p
    exact ⟨2 * (stringifyJson (prefsJson p)).length + 2 - 9, by omega⟩
  rw [hf, parseValue_prefs f p]
  simp [skipWs]

/-- Decoding inverts the preferences encoding. -/
theorem decodePrefs_prefsJson (p : UserPreferences) :
    decodePrefs (prefsJson p) = some p := rfl

/-- The startup read reproduces any persisted preferences value. -/
theorem readPreferences_roundtrip (p : UserPreferences) :
    readPreferences (some (stringifyJson (prefsJson p))) = some p := by
  unfold readPreferences
  dsimp only
  rw [parseJsonTop_prefs]
  simp [decodePrefs_prefsJson]

/-- C1 (counterexample): for the concrete response text `[{}]` the
extracted bracketed substring parses as syntactically valid JSON whose
content is not a valid step array (the empty object decodes as no step),
yet `generateRoadmap` succeeds and installs that value as the roadmap
instead of failing with a parse error. -/
theorem c1_counterexample :
    extractBracketed shapelessText = some shapelessText ∧
    parseJsonTop shapelessText = some (Json.arr [Json.obj []]) ∧
    decodeStep (Json.obj []) = none ∧
    (generateRoadmap sampleState shapelessText).2 = GenOutcome.remoteSuccess ∧
    (generateRoadmap sampleState shapelessText).1.roadmap = Json.arr [Json.obj []] :=
  ⟨rfl, rfl, rfl, rfl, rfl⟩

/-- C1 (amended): the code performs no shape validation.  Whenever
validation passes and the extracted bracketed substring parses as
syntactically valid JSON, `generateRoadmap` succeeds and returns the
parsed value as the roadmap — whatever its shape — so a parse  error is
reported only when extraction or syntactic parsing fails. -/
theorem c1_no_shape_validation (s : AppState) (t sub : List Char) (v : Json)
    (hk : (trimJS s.apiKey).isEmpty = false)
    (hg : (trimJS s.preferences.goal).isEmpty = false)
    (hx : extractBracketed t = some sub)
    (hp : parseJsonTop sub = some v) :
    (generateRoadmap s t).2 = GenOutcome.remoteSuccess ∧
    (generateRoadmap s t).1.roadmap = v := by
  constructor <;> simp [generateRoadmap, hk, hg, hx, hp]

/-- Witness for `c1_no_shape_validation` at the shapeless response text. -/
theorem c1_no_shape_validation_witness :
    (trimJS sampleState.apiKey).isEmpty = false ∧
    (trimJS sampleState.preferences.goal).isEmpty = false ∧
    extractBracketed shapelessText = some shapelessText ∧
    parseJsonTop shapelessText = some (Json.arr [Json.obj []]) ∧
    ((generateRoadmap sampleState shapelessText).2 = GenOutcome.remoteSuccess ∧
     (generateRoadmap sampleState shapelessText).1.roadmap = Json.arr [Json.obj []]) :=
  ⟨rfl, rfl, rfl, rfl,
   c1_no_shape_validation sampleState shapelessText shapelessText
     (Json.arr [Json.obj []]) rfl rfl rfl rfl⟩

/-- C2 (counterexample): `prefixedStepArrayText` contains exactly one
substring that is a well-formed JSON array of valid step objects, yet
`generateRoadmap` fails with a parse error (the greedy extraction from the
first bracket also captures the stray leading bracket) and leaves the
roadmap unchanged, contrary to the claim that generation succeeds on every
such text. -/
theorem c2_counterexample :
    stepArrayOccurrences prefixedStepArrayText = 1 ∧
    (generateRoadmap sampleState prefixedStepArrayText).2
      = GenOutcome.remoteParseError ∧
    (generateRoadmap sampleState prefixedStepArrayText).1.roadmap
      = sampleState.roadmap :=
  ⟨by decide, rfl, rfl⟩

/-- C2 (amended): whenever validation passes and the substring from the
first `'['` to the last `']'` of the response text is itself a well-formed
JSON array of one or more valid step objects, `generateRoadmap` succeeds
and returns exactly that array's parsed content as the roadmap. -/
theorem c2_success_on_exact_extraction (s : AppState) (t sub : List Char)
    (xs : List Json)
    (hk : (trimJS s.apiKey).isEmpty = false)
    (hg : (trimJS s.preferences.goal).isEmpty = false)
    (hx : extractBracketed t = some sub)
    (hp : parseJsonTop sub = some (Json.arr xs))
    (hne : xs ≠ [])
    (hsteps : xs.all isStepJson = true) :
    (generateRoadmap s t).2 = GenOutcome.remoteSuccess ∧
    (generateRoadmap s t).1.roadmap = Json.arr xs := by
  constructor <;> simp [generateRoadmap, hk, hg, hx, hp]

/-- Witness for `c2_success_on_exact_extraction` at a prose-wrapped step
array. -/
theorem c2_success_on_exact_extraction_witness :
    (trimJS sampleState.apiKey).isEmpty = false ∧
    (trimJS sampleState.preferences.goal).isEmpty = false ∧
    extractBracketed proseWrappedText = some stepArrayText ∧
    parseJsonTop stepArrayText = some (Json.arr [stepAJson]) ∧
    ([stepAJson] : List Json) ≠ [] ∧
    ([stepAJson].all isStepJson = true) ∧
    ((generateRoadmap sampleState proseWrappedText).2 = GenOutcome.remoteSuccess ∧
     (generateRoadmap sampleState proseWrappedText).1.roadmap
       = Json.arr [stepAJson]) :=
  ⟨rfl, rfl, rfl, rfl, List.cons_ne_nil _ _, rfl,
   c2_success_on_exact_extraction sampleState proseWrappedText stepArrayText
     [stepAJson] rfl rfl rfl rfl (List.cons_ne_nil _ _) rfl⟩

/-- C3: for every credential that is empty or whitespace-only, and for
every preferences value whose goal is empty or whitespace-only,
`generateRoadmap` fails with an immediate local validation error (one of
the two validation messages) and does not invoke the remote
generative-model call. -/
theorem c3_local_validation_no_remote_call (s : AppState) (t : List Char)
    (h : s.apiKey.all isJSWs = true ∨ s.preferences.goal.all isJSWs = true) :
    (generateRoadmap s t).2 = GenOutcome.localValidationError ∧
    GenOutcome.remoteCalled (generateRoadmap s t).2 = false ∧
    ((generateRoadmap s t).1.error = apiKeyErrorMsg ∨
     (generateRoadmap s t).1.error = goalErrorMsg) := by
  by_cases hk : (trimJS s.apiKey).isEmpty
  · simp [generateRoadmap, hk, GenOutcome.remoteCalled]
  · have hg : s.preferences.goal.all isJSWs = true := by
      rcases h with h | h
      · exact absurd (by simp [trimJS_eq_nil_of_all_ws _ h]) hk
      · exact h
    have hge : (trimJS s.preferences.goal).isEmpty = true := by
      simp [trimJS_eq_nil_of_all_ws _ hg]
    simp [generateRoadmap, hk, hge, GenOutcome.remoteCalled]

/-- Witness for `c3_local_validation_no_remote_call` at a whitespace-only
credential. -/
theorem c3_local_validation_witness :
    (wsKeyState.apiKey.all isJSWs = true ∨
     wsKeyState.preferences.goal.all isJSWs = true) ∧
    ((generateRoadmap wsKeyState noBracketText).2
        = GenOutcome.localValidationError ∧
     GenOutcome.remoteCalled (generateRoadmap wsKeyState noBracketText).2 = false ∧
     ((generateRoadmap wsKeyState noBracketText).1.error = apiKeyErrorMsg ∨
      (generateRoadmap wsKeyState noBracketText).1.error = goalErrorMsg)) :=
  ⟨Or.inl rfl,
   c3_local_validation_no_remote_call wsKeyState noBracketText (Or.inl rfl)⟩

/-- C4: when validation passes and the remote response text contains no
substring of the form `[...]`, `generateRoadmap` fails with a parse error:
the previously held roadmap is unchanged, the generic failure message is
set, and the busy flag is cleared. -/
theorem c4_no_bracket_parse_error (s : AppState) (t : List Char)
    (hk : (trimJS s.apiKey).isEmpty = false)
    (hg : (trimJS s.preferences.goal).isEmpty = false)
    (hb : containsBracketPair t = false) :
    (generateRoadmap s t).2 = GenOutcome.remoteParseError ∧
    (generateRoadmap s t).1.roadmap = s.roadmap ∧
    (generateRoadmap s t).1.error = genericFailureMsg ∧
    (generateRoadmap s t).1.loading = false := by
  simp [generateRoadmap, hk, hg, extractBracketed_eq_none t hb]

/-- Witness for `c4_no_bracket_parse_error` at a bracket-free response. -/
theorem c4_no_bracket_parse_error_witness :
    (trimJS sampleState.apiKey).isEmpty = false ∧
    (trimJS sampleState.preferences.goal).isEmpty = false ∧
    containsBracketPair noBracketText = false ∧
    ((generateRoadmap sampleState noBracketText).2 = GenOutcome.remoteParseError ∧
     (generateRoadmap sampleState noBracketText).1.roadmap = sampleState.roadmap ∧
     (generateRoadmap sampleState noBracketText).1.error = genericFailureMsg ∧
     (generateRoadmap sampleState noBracketText).1.loading = false) :=
  ⟨rfl, rfl, by decide,
   c4_no_bracket_parse_error sampleState noBracketText rfl rfl (by decide)⟩

/-- C5: saving with a non-empty current roadmap appends exactly one
`SavedRoadmap` whose steps equal the current roadmap and whose preferences
equal the current preferences; the list grows by exactly one and every
previously saved entry keeps its value and position. -/
theorem c5_save_appends_exactly_one (s : AppState) (now : List Char)
    (xs : List Json) (hr : s.roadmap = Json.arr xs) (hne : xs ≠ []) :
    (saveRoadmap s now).savedRoadmaps
      = s.savedRoadmaps ++ [⟨s.preferences, s.roadmap, now⟩] ∧
    (saveRoadmap s now).savedRoadmaps.length = s.savedRoadmaps.length + 1 ∧
    ∀ i, i < s.savedRoadmaps.length →
      (saveRoadmap s now).savedRoadmaps[i]? = s.savedRoadmaps[i]? := by
  have hz : jsLengthIsZero s.roadmap = false := by
    rw [hr]; simp [jsLengthIsZero, hne]
  refine ⟨by simp [saveRoadmap, hz], by simp [saveRoadmap, hz], ?_⟩
  intro i hi
  simp only [saveRoadmap, hz, Bool.false_eq_true, if_false]
  rw [List.getElem?_append, if_pos hi]

/-- Witness for `c5_save_appends_exactly_one` at a one-step roadmap. -/
theorem c5_save_appends_exactly_one_witness :
    loadedState.roadmap = Json.arr [Json.null] ∧
    ([Json.null] : List Json) ≠ [] ∧
    ((saveRoadmap loadedState sampleNow).savedRoadmaps
       = loadedState.savedRoadmaps
         ++ [⟨loadedState.preferences, loadedState.roadmap, sampleNow⟩] ∧
     (saveRoadmap loadedState sampleNow).savedRoadmaps.length
       = loadedState.savedRoadmaps.length + 1 ∧
     ∀ i, i < loadedState.savedRoadmaps.length →
       (saveRoadmap loadedState sampleNow).savedRoadmaps[i]?
         = loadedState.savedRoadmaps[i]?) :=
  ⟨rfl, List.cons_ne_nil _ _,
   c5_save_appends_exactly_one loadedState sampleNow [Json.null] rfl
     (List.cons_ne_nil _ _)⟩

/-- C6: loading a saved entry replaces the current preferences and roadmap
with the entry's stored values and leaves the saved list unchanged. -/
theorem c6_load_replaces_current (s : AppState) (saved : SavedRoadmap) :
    (loadRoadmap s saved).preferences = saved.preferences ∧
    (loadRoadmap s saved).roadmap = saved.steps ∧
    (loadRoadmap s saved).savedRoadmaps = s.savedRoadmaps :=
  ⟨rfl, rfl, rfl⟩

/-- C7: the preferences persisted by a successful generation (the
`lastPreferences` key) read back at startup as a `UserPreferences` value
identical to the one persisted. -/
theorem c7_preferences_roundtrip (s : AppState) (t sub : List Char) (v : Json)
    (hk : (trimJS s.apiKey).isEmpty = false)
    (hg : (trimJS s.preferences.goal).isEmpty = false)
    (hx : extractBracketed t = some sub)
    (hp : parseJsonTop sub = some v) :
    (generateRoadmap s t).1.store.lastPreferences
      = some (stringifyJson (prefsJson s.preferences)) ∧
    readPreferences ((generateRoadmap s t).1.store.lastPreferences)
      = some s.preferences := by
  have hst : (generateRoadmap s t).1.store.lastPreferences
      = some (stringifyJson (prefsJson s.preferences)) := by
    simp [generateRoadmap, hk, hg, hx, hp]
  exact ⟨hst, by rw [hst]; exact readPreferences_roundtrip s.preferences⟩

/-- Witness for `c7_preferences_roundtrip` at a successful generation. -/
theorem c7_preferences_roundtrip_witness :
    (trimJS sampleState.apiKey).isEmpty = false ∧
    (trimJS sampleState.preferences.goal).isEmpty = false ∧
    extractBracketed proseWrappedText = some stepArrayText ∧
    parseJsonTop stepArrayText = some (Json.arr [stepAJson]) ∧
    ((generateRoadmap sampleState proseWrappedText).1.store.lastPreferences
       = some (stringifyJson (prefsJson sampleState.preferences)) ∧
     readPreferences
        ((generateRoadmap sampleState proseWrappedText).1.store.lastPreferences)
       = some sampleState.preferences) :=
  ⟨rfl, rfl, rfl, rfl,
   c7_preferences_roundtrip sampleState proseWrappedText stepArrayText
     (Json.arr [stepAJson]) rfl rfl rfl rfl⟩

/-- C8: saving while the current roadmap is empty is a no-op: the whole
session state, including the in-memory saved list and the persistent
store, is unchanged. -/
theorem c8_empty_save_noop (s : AppState) (now : List Char)
    (h : s.roadmap = Json.arr []) : saveRoadmap s now = s := by
  simp [saveRoadmap, h, jsLengthIsZero]

/-- Witness for `c8_empty_save_noop` at the empty-roadmap state. -/
theorem c8_empty_save_noop_witness :
    sampleState.roadmap = Json.arr [] ∧
    saveRoadmap sampleState sampleNow = sampleState :=
  ⟨rfl, c8_empty_save_noop sampleState sampleNow rfl⟩

/-- C9: whenever a generation run succeeds, the resulting error message is
empty: any previously displayed message is cleared and none is set on the
success path. -/
theorem c9_success_clears_error (s : AppState) (t : List Char)
    (h : (generateRoadmap s t).2 = GenOutcome.remoteSuccess) :
    (generateRoadmap s t).1.error = [] := by
  by_cases hk : (trimJS s.apiKey).isEmpty
  · simp [generateRoadmap, hk] at h
  · by_cases hg : (trimJS s.preferences.goal).isEmpty
    · simp [generateRoadmap, hk, hg] at h
    · cases hx : extractBracketed t with
      | none => simp [generateRoadmap, hk, hg, hx] at h
      | some sub =>
        cases hp : parseJsonTop sub with
        | none => simp [generateRoadmap, hk, hg, hx, hp] at h
        | some v => simp [generateRoadmap, hk, hg, hx, hp]

/-- Witness for `c9_success_clears_error` at a succeeding generation, from
a state that previously displayed an error message. -/
theorem c9_success_clears_error_witness :
    (generateRoadmap { sampleState with error := genericFailureMsg }
        shapelessText).2 = GenOutcome.remoteSuccess ∧
    (generateRoadmap { sampleState with error := genericFailureMsg }
        shapelessText).1.error = [] :=
  ⟨rfl, c9_success_clears_error { sampleState with error := genericFailureMsg }
          shapelessText rfl⟩

/-- C10: saving touches nothing but the saved-roadmap list: the current
roadmap, preferences, credential, error message, busy flag and display
mode are unchanged, and of the persistent keys only `savedRoadmaps` can be
written (`lastPreferences` and `geminiApiKey` are untouched). -/
theorem c10_save_frame (s : AppState) (now : List Char) :
    (saveRoadmap s now).preferences = s.preferences ∧
    (saveRoadmap s now).roadmap = s.roadmap ∧
    (saveRoadmap s now).apiKey = s.apiKey ∧
    (saveRoadmap s now).error = s.error ∧
    (saveRoadmap s now).loading = s.loading ∧
    (saveRoadmap s now).showApiInput = s.showApiInput ∧
    (saveRoadmap s now).isDarkMode = s.isDarkMode ∧
    (saveRoadmap s now).store.lastPreferences = s.store.lastPreferences ∧
    (saveRoadmap s now).store.geminiApiKey = s.store.geminiApiKey := by
  unfold saveRoadmap
  split <;> simp
